import Mathlib

/-!
Shallow embedding of `arch/arm/mach-at91/pm.c` (AT91 power management):
the suspend state machine, the clock validator, the SRAM relocation step
and the device-tree memory-controller discovery, together with theorems
checking the natural-language specification against them.

Hardware register access (`at91_pmc_read`) is modelled by an explicit
register file passed to each function; the process-wide mutable globals
(`target_state`, `at91_pm_data`, `at91_ramc_base`, `at91_suspend_sram_fn`)
become explicit arguments and results.  Side effects (cache flushes,
outer-cache disable, the call into the relocated SRAM routine, GPIO
suspend/resume, `pr_err` logging) are recorded in explicit event traces.
-/

namespace AT91

/-- Modelled from the spec: `linux/suspend.h` is not under `src/`; the spec
names three accepted suspend states {Active, Standby, SuspendToRAM} plus
arbitrary other rejected values, so the state codes are distinct naturals. -/
def PM_SUSPEND_ON : Nat := 0

/-- Modelled from the spec: the shallow standby state code. -/
def PM_SUSPEND_STANDBY : Nat := 2

/-- Modelled from the spec: the deep suspend-to-RAM state code. -/
def PM_SUSPEND_MEM : Nat := 3

/-- Modelled from the spec: `linux/clk/at91_pmc.h` is not under `src/`.
`AT91_PMC_PCK0` is the system-clock-status bit for programmable clock
output 0; bits for PCK1..3 are the consecutive higher bits
(`AT91_PMC_PCK0 << i` in the source). -/
def AT91_PMC_PCK0 : Nat := 1 <<< 8

/-- Modelled from the spec: the clock-source selection field mask of a
programmable clock register. -/
def AT91_PMC_CSS : Nat := 3

/-- Modelled from the spec: the clock-source selection value meaning the
slow reference clock. -/
def AT91_PMC_CSS_SLOW : Nat := 0

/-- Modelled from the spec: the USB PLL enable bit in the UTMI clock
register. -/
def AT91_PMC_UPLLEN : Nat := 1 <<< 16

/-- Modelled from the spec: PLL B's lock-status bit in the PMC status
register. -/
def AT91_PMC_LOCKB : Nat := 1 <<< 2

/-- The per-family parameters of `at91_pm_data` (pm.c line 41). -/
structure PmData where
  uhp_udp_mask : Nat
  memctrl : Nat
  ddrc_pid : Nat
  is_sama5d4 : Bool

/-- The clock-controller registers read by `at91_pm_verify_clocks`:
the system clock status register `AT91_PMC_SCSR`, the four programmable
clock registers `AT91_PMC_PCKR(0..3)`, the UTMI clock register
`AT91_CKGR_UCKR` and the status register `AT91_PMC_SR`. -/
structure PmcRegs where
  scsr : Nat
  pckr0 : Nat
  pckr1 : Nat
  pckr2 : Nat
  pckr3 : Nat
  uckr : Nat
  sr : Nat

/-- Read of `AT91_PMC_PCKR(i)` for `i` in `0..3`. -/
def PmcRegs.pckr (r : PmcRegs) : Nat → Nat
  | 0 => r.pckr0
  | 1 => r.pckr1
  | 2 => r.pckr2
  | _ => r.pckr3

/-- The distinct `pr_err` messages of `at91_pm_verify_clocks`
(pm.c lines 88, 101, 108, 114). `pckSrc` carries the output index and the
offending clock-source selection, as the format arguments do. -/
inductive PmErr where
  | usbActive : PmErr
  | pckSrc (i css : Nat) : PmErr
  | usbPll : PmErr
  | pllB : PmErr
deriving DecidableEq, Repr

/-- The `for (i = 0; i < 4; i++)` loop of `at91_pm_verify_clocks`
(pm.c lines 93-104), over the explicit list of output indices: the first
enabled output whose selected source is not the slow clock produces the
error, later outputs are not inspected. -/
def at91_pm_check_pck (r : PmcRegs) : List Nat → Option PmErr
  | [] => none
  | i :: rest =>
    if r.scsr &&& (AT91_PMC_PCK0 <<< i) = 0 then
      at91_pm_check_pck r rest
    else
      let css := r.pckr i &&& AT91_PMC_CSS
      if css ≠ AT91_PMC_CSS_SLOW then some (PmErr.pckSrc i css)
      else at91_pm_check_pck r rest

/-- `at91_pm_verify_clocks` (pm.c lines 79-119), refined to return which
`pr_err` fires (`none` when the function returns 1). -/
def at91_pm_verify_clocks_log (d : PmData) (r : PmcRegs) : Option PmErr :=
  if r.scsr &&& d.uhp_udp_mask ≠ 0 then some PmErr.usbActive
  else match at91_pm_check_pck r [0, 1, 2, 3] with
  | some e => some e
  | none =>
    if r.uckr &&& AT91_PMC_UPLLEN ≠ 0 then some PmErr.usbPll
    else if r.sr &&& AT91_PMC_LOCKB ≠ 0 then some PmErr.pllB
    else none

/-- The boolean result of `at91_pm_verify_clocks`: `true` iff no check
fired an error (the source returns 1 resp. 0). -/
def at91_pm_verify_clocks (d : PmData) (r : PmcRegs) : Bool :=
  (at91_pm_verify_clocks_log d r).isNone

/-- Precondition 1 of the spec: all USB host/device clock-enable bits of
the profile's mask are clear in the status register. -/
def UsbClocksOff (d : PmData) (r : PmcRegs) : Prop :=
  r.scsr &&& d.uhp_udp_mask = 0

/-- Precondition 2 of the spec: each of the 4 programmable clock outputs
is either disabled or sourced from the slow clock. -/
def PcksOffOrSlow (r : PmcRegs) : Prop :=
  ∀ i, i < 4 →
    r.scsr &&& (AT91_PMC_PCK0 <<< i) = 0 ∨
    r.pckr i &&& AT91_PMC_CSS = AT91_PMC_CSS_SLOW

/-- Precondition 3 of the spec: the USB PLL enable bit is clear. -/
def UsbPllOff (r : PmcRegs) : Prop :=
  r.uckr &&& AT91_PMC_UPLLEN = 0

/-- Precondition 4 of the spec: PLL B's lock-status bit is clear. -/
def PllBOff (r : PmcRegs) : Prop :=
  r.sr &&& AT91_PMC_LOCKB = 0

instance (d : PmData) (r : PmcRegs) : Decidable (UsbClocksOff d r) := by
  unfold UsbClocksOff; infer_instance

instance (r : PmcRegs) : Decidable (PcksOffOrSlow r) := by
  unfold PcksOffOrSlow; infer_instance

instance (r : PmcRegs) : Decidable (UsbPllOff r) := by
  unfold UsbPllOff; infer_instance

instance (r : PmcRegs) : Decidable (PllBOff r) := by
  unfold PllBOff; infer_instance

lemma at91_pm_check_pck_none_iff (r : PmcRegs) (l : List Nat) :
    at91_pm_check_pck r l = none ↔
      ∀ i ∈ l, r.scsr &&& (AT91_PMC_PCK0 <<< i) = 0 ∨
        r.pckr i &&& AT91_PMC_CSS = AT91_PMC_CSS_SLOW := by
  induction l with
  | nil => simp [at91_pm_check_pck]
  | cons i rest ih =>
    simp only [at91_pm_check_pck]
    by_cases hen : r.scsr &&& (AT91_PMC_PCK0 <<< i) = 0
    · simp [hen, ih]
    · by_cases hc : r.pckr i &&& AT91_PMC_CSS = AT91_PMC_CSS_SLOW
      · simp [hen, hc, ih]
      · simp [hen, hc]

lemma at91_pm_check_pck_shape (r : PmcRegs) (l : List Nat) :
    at91_pm_check_pck r l = none ∨
      ∃ i, i ∈ l ∧
        at91_pm_check_pck r l = some (PmErr.pckSrc i (r.pckr i &&& AT91_PMC_CSS)) := by
  induction l with
  | nil => simp [at91_pm_check_pck]
  | cons i rest ih =>
    simp only [at91_pm_check_pck]
    by_cases hen : r.scsr &&& (AT91_PMC_PCK0 <<< i) = 0
    · simp only [hen, if_true]
      rcases ih with h | ⟨j, hj, heq⟩
      · exact Or.inl h
      · exact Or.inr ⟨j, by simp [hj], heq⟩
    · by_cases hc : r.pckr i &&& AT91_PMC_CSS = AT91_PMC_CSS_SLOW
      · simp only [hen, if_false, hc]
        simp only [ne_eq, not_true_eq_false, if_false]
        rcases ih with h | ⟨j, hj, heq⟩
        · exact Or.inl h
        · exact Or.inr ⟨j, by simp [hj], heq⟩
      · refine Or.inr ⟨i, by simp, ?_⟩
        simp [hen, hc]

/-- Modelled from the spec: `pm.h` is not under `src/`; per spec §6 the
mode word packs the deep/slow-clock flag, the memory-controller device id
field, the variant flag bit and the memory-controller kind in disjoint bit
fields.  The kind occupies the low nibble (the source ORs `memctrl` in
unshifted), the deep/slow-clock flag bit 4, the variant flag bit 5, and
the device id field the bits from 16 up. -/
def AT91_PM_MODE (x : Nat) : Nat := (x &&& 1) <<< 4

/-- Modelled from the spec: the mode value meaning deep (slow-clock)
suspend. -/
def AT91_PM_SLOW_CLOCK : Nat := 1

/-- Modelled from the spec: packs the memory-controller device id into its
field of the mode word. -/
def AT91_PM_DDRC_PID (x : Nat) : Nat := (x &&& 0xffff) <<< 16

/-- Modelled from the spec: the variant-X (SAMA5D4) flag value. -/
def AT91_PM_SAMA5D4_BIT : Nat := 1

/-- Modelled from the spec: packs the variant-X flag into its bit of the
mode word. -/
def AT91_PM_IS_SAMA5D4 (x : Nat) : Nat := (x &&& 1) <<< 5

/-- Modelled from the spec: the memory-controller kind codes
{MC, SDRAMC, DDRSDR} are distinct values fitting the kind field. -/
def AT91_MEMCTRL_MC : Nat := 0

/-- Modelled from the spec: kind code of the SDRAM controller. -/
def AT91_MEMCTRL_SDRAMC : Nat := 1

/-- Modelled from the spec: kind code of the DDR/SDR controller. -/
def AT91_MEMCTRL_DDRSDR : Nat := 2

/-- The `pm_data` mode word assembled by `at91_pm_suspend`
(pm.c lines 146-153). -/
def at91_pm_suspend_pm_data (d : PmData) (state : Nat) : Nat :=
  let pm_data := d.memctrl
  let pm_data := pm_data |||
    (if state = PM_SUSPEND_MEM then AT91_PM_MODE AT91_PM_SLOW_CLOCK else 0)
  let pm_data := pm_data ||| AT91_PM_DDRC_PID d.ddrc_pid
  let pm_data := pm_data |||
    (if d.is_sama5d4 then AT91_PM_IS_SAMA5D4 AT91_PM_SAMA5D4_BIT else 0)
  pm_data

/-- Event trace of one `at91_pm_enter` call: counters for each side effect
and the mode words of the calls into the relocated SRAM routine, plus the
returned value and the value of `target_state` on return. -/
structure EnterTrace where
  ret : Nat
  targetAfter : Nat
  gpioSuspends : Nat
  gpioResumes : Nat
  flushes : Nat
  outerDisables : Nat
  outerResumes : Nat
  sramCalls : List Nat
  cpuIdles : Nat
deriving DecidableEq, Repr

/-- The side effects of the switch body alone (no GPIO, no return). -/
structure BodyTrace where
  flushes : Nat
  outerDisables : Nat
  outerResumes : Nat
  sramCalls : List Nat
  cpuIdles : Nat
deriving DecidableEq, Repr

/-- `at91_pm_suspend` (pm.c lines 144-162): flush all CPU caches, disable
the outer cache, call the relocated SRAM routine with the assembled mode
word, re-enable the outer cache. -/
def at91_pm_suspend (d : PmData) (state : Nat) : BodyTrace :=
  { flushes := 1
    outerDisables := 1
    outerResumes := 1
    sramCalls := [at91_pm_suspend_pm_data d state]
    cpuIdles := 0 }

/-- An empty switch body (the paths that go straight to `error:`). -/
def BodyTrace.empty : BodyTrace :=
  { flushes := 0, outerDisables := 0, outerResumes := 0,
    sramCalls := [], cpuIdles := 0 }

/-- `at91_pm_enter` (pm.c lines 164-209).  GPIO suspend first; then the
switch: `PM_SUSPEND_MEM` runs the clock validator and on failure jumps to
`error`, otherwise suspends; `PM_SUSPEND_STANDBY` suspends;
`PM_SUSPEND_ON` idles the CPU; any other state jumps to `error`.  The
`error:` label is reached on every path (a `break` also falls through to
it): `target_state` is reset to `PM_SUSPEND_ON`, GPIO is resumed and 0 is
returned. -/
def at91_pm_enter (d : PmData) (r : PmcRegs) (state : Nat) : EnterTrace :=
  let body : BodyTrace :=
    if state = PM_SUSPEND_MEM then
      if at91_pm_verify_clocks d r then at91_pm_suspend d state
      else BodyTrace.empty
    else if state = PM_SUSPEND_STANDBY then at91_pm_suspend d state
    else if state = PM_SUSPEND_ON then
      { BodyTrace.empty with cpuIdles := 1 }
    else BodyTrace.empty
  { ret := 0
    targetAfter := PM_SUSPEND_ON
    gpioSuspends := 1
    gpioResumes := 1
    flushes := body.flushes
    outerDisables := body.outerDisables
    outerResumes := body.outerResumes
    sramCalls := body.sramCalls
    cpuIdles := body.cpuIdles }

/-- `at91_pm_valid_state` (pm.c lines 50-61): the switch accepting
`PM_SUSPEND_ON`, `PM_SUSPEND_STANDBY` and `PM_SUSPEND_MEM` (returning 1)
and rejecting everything else (returning 0). -/
def at91_pm_valid_state (state : Nat) : Nat :=
  if state = PM_SUSPEND_ON then 1
  else if state = PM_SUSPEND_STANDBY then 1
  else if state = PM_SUSPEND_MEM then 1
  else 0

/-- `at91_pm_begin` (pm.c lines 69-73): records the state into
`target_state` and returns 0.  Result: (returned value, new
`target_state`). -/
def at91_pm_begin (state : Nat) : Nat × Nat :=
  (0, state)

/-- `at91_pm_end` (pm.c lines 214-217): resets `target_state` to
`PM_SUSPEND_ON`. -/
def at91_pm_end (_target_state : Nat) : Nat :=
  PM_SUSPEND_ON

/-- `at91_suspend_entering_slow_clock` (pm.c lines 131-134): the exported
deep-suspend query, comparing `target_state` with `PM_SUSPEND_MEM`. -/
def at91_suspend_entering_slow_clock (target_state : Nat) : Bool :=
  target_state == PM_SUSPEND_MEM

/-- A device-tree node matched by `ramc_ids` in discovery order: `base` is
the result of `of_iomap` on it (`none` when mapping fails), `data` the
matched table entry's standby-routine pointer (`of_id->data`, `none` for a
null pointer). -/
structure RamcNode where
  base : Option Nat
  data : Option Nat
deriving DecidableEq, Repr

/-- The two `panic` messages of `at91_dt_ramc` (pm.c lines 255, 264):
failing to map the registers of the node at a given index, and finding no
compatible node at all. -/
inductive DtFatal where
  | unableToMapRamc (idx : Nat) : DtFatal
  | noRamcNode : DtFatal
deriving DecidableEq, Repr

/-- The observable outcome of a completed `at91_dt_ramc` run: the writes
`at91_ramc_base[idx] = base` it performed in order, the standby routine
handed to `at91_pm_set_standby` (if any), and whether the
`ramc no standby function available` warning was printed. -/
structure DtRamcOutcome where
  writes : List (Nat × Nat)
  standbySet : Option Nat
  warned : Bool
deriving DecidableEq, Repr

/-- The `for_each_matching_node_and_match` loop of `at91_dt_ramc`
(pm.c lines 252-261): map each node (panicking when the map fails), record
the write to `at91_ramc_base[idx]`, keep the first non-null standby
pointer, and count `idx` up.  Returns the final `idx`, the chosen standby
and the accumulated writes. -/
def at91_dt_ramc_loop :
    List RamcNode → Nat → Option Nat → List (Nat × Nat) →
    Except DtFatal (Nat × Option Nat × List (Nat × Nat))
  | [], idx, standby, writes => Except.ok (idx, standby, writes)
  | n :: rest, idx, standby, writes =>
    match n.base with
    | none => Except.error (DtFatal.unableToMapRamc idx)
    | some b =>
      at91_dt_ramc_loop rest (idx + 1)
        (if standby.isNone then n.data else standby)
        (writes ++ [(idx, b)])

/-- `at91_dt_ramc` (pm.c lines 245-272): run the discovery loop, panic if
no compatible node was found, warn and skip `at91_pm_set_standby` if no
standby routine was resolved. -/
def at91_dt_ramc (nodes : List RamcNode) : Except DtFatal DtRamcOutcome :=
  match at91_dt_ramc_loop nodes 0 none [] with
  | Except.error e => Except.error e
  | Except.ok (idx, standby, writes) =>
    if idx = 0 then Except.error DtFatal.noRamcNode
    else match standby with
    | none => Except.ok { writes := writes, standbySet := none, warned := true }
    | some s => Except.ok { writes := writes, standbySet := some s, warned := false }

/-- The environment `at91_pm_sram_init` runs in: whether a platform device
for an `mmio-sram` node exists, whether it has a backing gen_pool, the
address `gen_pool_alloc` returns (0 on failure, as in the source), and
whether `__arm_ioremap_exec` succeeds. -/
structure SramEnv where
  hasPdev : Bool
  hasPool : Bool
  allocBase : Nat
  mapOk : Bool
deriving DecidableEq, Repr

/-- `at91_pm_sram_init` (pm.c lines 274-318): locate the SRAM device, its
pool, allocate, map executable and copy the routine; each failure warns
and returns leaving `at91_suspend_sram_fn` null (`none`).  On success the
handle is the mapped function pointer (stood in for by the allocated
address). -/
def at91_pm_sram_init (e : SramEnv) : Option Nat :=
  if ¬ e.hasPdev then none
  else if ¬ e.hasPool then none
  else if e.allocBase = 0 then none
  else if ¬ e.mapOk then none
  else some e.allocBase

/-- The observable outcome of `at91_pm_init`: whether the cpuidle device
was registered, whether the suspend ops were registered with the OS
suspend framework, and whether the `PM not supported` info message was
printed. -/
structure PmInitOutcome where
  cpuidleRegistered : Bool
  suspendOpsSet : Bool
  notSupportedLogged : Bool
deriving DecidableEq, Repr

/-- `at91_pm_init` (pm.c lines 320-331): run the SRAM relocation, register
the cpuidle device when a standby callback was attached as its platform
data, and register the suspend ops only when the relocated-routine handle
is non-null (otherwise log that PM is not supported). -/
def at91_pm_init (e : SramEnv) (standby : Option Nat) : PmInitOutcome :=
  let sram_fn := at91_pm_sram_init e
  { cpuidleRegistered := standby.isSome
    suspendOpsSet := sram_fn.isSome
    notSupportedLogged := sram_fn.isNone }

/-- C8: `validate(state)` returns true (1) for every state in
{Active, Standby, SuspendToRAM} and false (0) for every other state
value. -/
theorem claim_C8 (s : Nat) :
    (at91_pm_valid_state s = 1 ↔
      (s = PM_SUSPEND_ON ∨ s = PM_SUSPEND_STANDBY ∨ s = PM_SUSPEND_MEM)) ∧
    (at91_pm_valid_state s = 0 ↔
      ¬ (s = PM_SUSPEND_ON ∨ s = PM_SUSPEND_STANDBY ∨ s = PM_SUSPEND_MEM)) := by
  unfold at91_pm_valid_state PM_SUSPEND_ON PM_SUSPEND_STANDBY PM_SUSPEND_MEM
  split_ifs with h1 h2 h3 <;> simp_all

/-- C9: after `begin(s)` the exported deep-suspend query returns true
exactly when `s = SuspendToRAM`; after `enter` or `end` reset
`target_state` to Active, the query returns false. -/
theorem claim_C9 (s t : Nat) (d : PmData) (r : PmcRegs) :
    (at91_suspend_entering_slow_clock (at91_pm_begin s).2 =
      decide (s = PM_SUSPEND_MEM)) ∧
    at91_suspend_entering_slow_clock (at91_pm_enter d r s).targetAfter = false ∧
    at91_suspend_entering_slow_clock (at91_pm_end t) = false := by
  refine ⟨?_, ?_, ?_⟩
  · by_cases h : s = PM_SUSPEND_MEM <;>
      simp [at91_suspend_entering_slow_clock, at91_pm_begin, h]
  · simp [at91_suspend_entering_slow_clock, at91_pm_enter,
      PM_SUSPEND_ON, PM_SUSPEND_MEM]
  · simp [at91_suspend_entering_slow_clock, at91_pm_end,
      PM_SUSPEND_ON, PM_SUSPEND_MEM]

/-- C4: for every state value, `enter` returns 0 to the framework, and
before returning resets `target_state` to Active and balances the single
GPIO suspend performed at entry with exactly one GPIO resume. -/
theorem claim_C4 (d : PmData) (r : PmcRegs) (s : Nat) :
    (at91_pm_enter d r s).ret = 0 ∧
    (at91_pm_enter d r s).targetAfter = PM_SUSPEND_ON ∧
    (at91_pm_enter d r s).gpioSuspends = 1 ∧
    (at91_pm_enter d r s).gpioResumes = 1 :=
  ⟨rfl, rfl, rfl, rfl⟩

/-- C1: when `enter` is called with SuspendToRAM and the clock validator
fails, the relocated SRAM routine is never invoked, no CPU cache flush and
no outer-cache disable occur, and control proceeds directly to error
cleanup (`target_state` reset to Active, GPIO resumed, return 0). -/
theorem claim_C1 (d : PmData) (r : PmcRegs)
    (h : at91_pm_verify_clocks d r = false) :
    (at91_pm_enter d r PM_SUSPEND_MEM).sramCalls = [] ∧
    (at91_pm_enter d r PM_SUSPEND_MEM).flushes = 0 ∧
    (at91_pm_enter d r PM_SUSPEND_MEM).outerDisables = 0 ∧
    (at91_pm_enter d r PM_SUSPEND_MEM).targetAfter = PM_SUSPEND_ON ∧
    (at91_pm_enter d r PM_SUSPEND_MEM).gpioResumes = 1 ∧
    (at91_pm_enter d r PM_SUSPEND_MEM).ret = 0 := by
  simp [at91_pm_enter, h, BodyTrace.empty]

/-- Witness for C1 at a register file whose USB clock-status bit is set,
so the validator fails. -/
theorem claim_C1_witness :
    at91_pm_verify_clocks ⟨1, 0, 0, false⟩ ⟨1, 0, 0, 0, 0, 0, 0⟩ = false ∧
    (at91_pm_enter ⟨1, 0, 0, false⟩ ⟨1, 0, 0, 0, 0, 0, 0⟩
      PM_SUSPEND_MEM).sramCalls = [] :=
  ⟨by decide, (claim_C1 ⟨1, 0, 0, false⟩ ⟨1, 0, 0, 0, 0, 0, 0⟩ (by decide)).1⟩

/-- C5: the relocated-routine handle is null exactly when some step of
SRAM relocation fails (no SRAM device, no pool, allocation failure,
mapping failure); initialization continues non-fatally (the cpuidle
registration is unaffected), and the suspend framework registration
happens only for a non-null handle. -/
theorem claim_C5 (e : SramEnv) (standby : Option Nat) :
    (at91_pm_sram_init e = none ↔
      (¬ e.hasPdev ∨ ¬ e.hasPool ∨ e.allocBase = 0 ∨ ¬ e.mapOk)) ∧
    (at91_pm_init e standby).suspendOpsSet = (at91_pm_sram_init e).isSome ∧
    (at91_pm_init e standby).notSupportedLogged = (at91_pm_sram_init e).isNone ∧
    (at91_pm_init e standby).cpuidleRegistered = standby.isSome := by
  refine ⟨?_, rfl, rfl, rfl⟩
  unfold at91_pm_sram_init
  split_ifs with h1 h2 h3 h4 <;> simp_all

lemma at91_dt_ramc_loop_all_ok (nodes : List RamcNode)
    (hb : ∀ n ∈ nodes, n.base.isSome) (hd : ∀ n ∈ nodes, n.data = none) :
    ∀ idx ws, ∃ ws',
      at91_dt_ramc_loop nodes idx none ws =
        Except.ok (idx + nodes.length, none, ws') := by
  induction nodes with
  | nil => intro idx ws; exact ⟨ws, by simp [at91_dt_ramc_loop]⟩
  | cons n rest ih =>
    intro idx ws
    obtain ⟨b, hbeq⟩ := Option.isSome_iff_exists.mp (hb n (by simp))
    have hd0 : n.data = none := hd n (by simp)
    obtain ⟨ws', hws⟩ :=
      ih (fun m hm => hb m (by simp [hm])) (fun m hm => hd m (by simp [hm]))
        (idx + 1) (ws ++ [(idx, b)])
    refine ⟨ws', ?_⟩
    rw [show idx + (n :: rest).length = (idx + 1) + rest.length by simp; omega]
    simpa [at91_dt_ramc_loop, hbeq, hd0] using hws

/-- C6: with zero matching memory-controller nodes, discovery panics
(fatal); with matching nodes that all map but none declaring a standby
routine, discovery completes, only emitting the no-standby warning and
attaching no standby callback. -/
theorem claim_C6 (nodes : List RamcNode) :
    (nodes = [] → at91_dt_ramc nodes = Except.error DtFatal.noRamcNode) ∧
    (nodes ≠ [] → (∀ n ∈ nodes, n.base.isSome) → (∀ n ∈ nodes, n.data = none) →
      ∃ o, at91_dt_ramc nodes = Except.ok o ∧
        o.warned = true ∧ o.standbySet = none) := by
  constructor
  · rintro rfl
    simp [at91_dt_ramc, at91_dt_ramc_loop]
  · intro hne hb hd
    obtain ⟨ws', hws⟩ := at91_dt_ramc_loop_all_ok nodes hb hd 0 []
    refine ⟨{ writes := ws', standbySet := none, warned := true }, ?_, rfl, rfl⟩
    have hlen : nodes.length ≠ 0 := by
      intro h0; exact hne (List.length_eq_zero.mp h0)
    simp [at91_dt_ramc, hws, hlen]

/-- Witness for C6: the empty node list panics; a single mappable node
with a null standby pointer completes with only the warning. -/
theorem claim_C6_witness :
    at91_dt_ramc [] = Except.error DtFatal.noRamcNode ∧
    ∃ o, at91_dt_ramc [⟨some 5, none⟩] = Except.ok o ∧
      o.warned = true ∧ o.standbySet = none :=
  ⟨(claim_C6 []).1 rfl,
   (claim_C6 [⟨some 5, none⟩]).2 (by simp) (by simp) (by simp)⟩

lemma at91_dt_ramc_loop_map_fail (pre : List RamcNode) (n : RamcNode)
    (post : List RamcNode) (hn : n.base = none) :
    ∀ idx standby ws, (∀ m ∈ pre, m.base.isSome) →
      at91_dt_ramc_loop (pre ++ n :: post) idx standby ws =
        Except.error (DtFatal.unableToMapRamc (idx + pre.length)) := by
  induction pre with
  | nil => intro idx standby ws _; simp [at91_dt_ramc_loop, hn]
  | cons m rest ih =>
    intro idx standby ws hpre
    obtain ⟨b, hbeq⟩ := Option.isSome_iff_exists.mp (hpre m (by simp))
    rw [show idx + (m :: rest).length = (idx + 1) + rest.length by simp; omega]
    simpa [at91_dt_ramc_loop, hbeq] using
      ih (idx + 1) (if standby.isNone then m.data else standby)
        (ws ++ [(idx, b)]) (fun m' hm' => hpre m' (by simp [hm']))

/-- C10: when a matching node is found but mapping its register base
fails, discovery panics with the map-failure message (at the index of that
node), an additional fatal case beyond the zero-matching-nodes one. -/
theorem claim_C10 (pre : List RamcNode) (n : RamcNode) (post : List RamcNode)
    (hpre : ∀ m ∈ pre, m.base.isSome) (hn : n.base = none) :
    at91_dt_ramc (pre ++ n :: post) =
      Except.error (DtFatal.unableToMapRamc pre.length) := by
  have h := at91_dt_ramc_loop_map_fail pre n post hn 0 none [] hpre
  simp only [Nat.zero_add] at h
  simp [at91_dt_ramc, h]

/-- Witness for C10: the second node fails to map, so discovery panics
with index 1. -/
theorem claim_C10_witness :
    at91_dt_ramc [⟨some 5, some 7⟩, ⟨none, none⟩] =
      Except.error (DtFatal.unableToMapRamc 1) :=
  claim_C10 [⟨some 5, some 7⟩] ⟨none, none⟩ [] (by simp) rfl

/-- C7 (failing input): with three matching nodes that all map, discovery
performs a third write at index 2 — beyond the bounds of the two-entry
`at91_ramc_base` array, contradicting the at-most-2 bound. -/
theorem claim_C7 :
    at91_dt_ramc [⟨some 10, some 7⟩, ⟨some 20, some 7⟩, ⟨some 30, some 7⟩] =
      Except.ok { writes := [(0, 10), (1, 20), (2, 30)],
                  standbySet := some 7, warned := false } := rfl

/-- C2: the clock validator returns true iff all four preconditions hold
— USB clock-enable bits clear, each programmable clock output disabled or
slow-clock-sourced, USB PLL enable clear, PLL B lock clear — and the
checks run in that order, the logged error being the first violated
precondition. -/
theorem claim_C2 (d : PmData) (r : PmcRegs) :
    (at91_pm_verify_clocks d r = true ↔
      (UsbClocksOff d r ∧ PcksOffOrSlow r ∧ UsbPllOff r ∧ PllBOff r)) ∧
    (¬ UsbClocksOff d r →
      at91_pm_verify_clocks_log d r = some PmErr.usbActive) ∧
    (UsbClocksOff d r → ¬ PcksOffOrSlow r →
      ∃ i, i < 4 ∧ at91_pm_verify_clocks_log d r =
        some (PmErr.pckSrc i (r.pckr i &&& AT91_PMC_CSS))) ∧
    (UsbClocksOff d r → PcksOffOrSlow r → ¬ UsbPllOff r →
      at91_pm_verify_clocks_log d r = some PmErr.usbPll) ∧
    (UsbClocksOff d r → PcksOffOrSlow r → UsbPllOff r → ¬ PllBOff r →
      at91_pm_verify_clocks_log d r = some PmErr.pllB) := by
  have hbridge :
      (∀ i ∈ ([0, 1, 2, 3] : List Nat),
        r.scsr &&& (AT91_PMC_PCK0 <<< i) = 0 ∨
          r.pckr i &&& AT91_PMC_CSS = AT91_PMC_CSS_SLOW) ↔ PcksOffOrSlow r := by
    constructor
    · intro h i hi
      interval_cases i <;> exact h _ (by simp)
    · intro h i hi
      rcases (by simpa using hi : i = 0 ∨ i = 1 ∨ i = 2 ∨ i = 3) with
        rfl | rfl | rfl | rfl <;> exact h _ (by norm_num)
  have hloop := (at91_pm_check_pck_none_iff r [0, 1, 2, 3]).trans hbridge
  by_cases h1 : UsbClocksOff d r
  · have h1e : r.scsr &&& d.uhp_udp_mask = 0 := h1
    rcases at91_pm_check_pck_shape r [0, 1, 2, 3] with hnone | ⟨i, hi, heq⟩
    · have h2 : PcksOffOrSlow r := hloop.mp hnone
      by_cases h3 : UsbPllOff r
      · have h3e : r.uckr &&& AT91_PMC_UPLLEN = 0 := h3
        by_cases h4 : PllBOff r
        · have h4e : r.sr &&& AT91_PMC_LOCKB = 0 := h4
          have hlog : at91_pm_verify_clocks_log d r = none := by
            simp [at91_pm_verify_clocks_log, h1e, hnone, h3e, h4e]
          exact ⟨by simp [at91_pm_verify_clocks, hlog, h1, h2, h3, h4],
            fun h => absurd h1 h,
            fun _ h => absurd h2 h,
            fun _ _ h => absurd h3 h,
            fun _ _ _ h => absurd h4 h⟩
        · have h4e : r.sr &&& AT91_PMC_LOCKB ≠ 0 := fun he => h4 he
          have hlog : at91_pm_verify_clocks_log d r = some PmErr.pllB := by
            simp [at91_pm_verify_clocks_log, h1e, hnone, h3e, h4e]
          exact ⟨by simp [at91_pm_verify_clocks, hlog, h4],
            fun h => absurd h1 h,
            fun _ h => absurd h2 h,
            fun _ _ h => absurd h3 h,
            fun _ _ _ _ => hlog⟩
      · have h3e : r.uckr &&& AT91_PMC_UPLLEN ≠ 0 := fun he => h3 he
        have hlog : at91_pm_verify_clocks_log d r = some PmErr.usbPll := by
          simp [at91_pm_verify_clocks_log, h1e, hnone, h3e]
        exact ⟨by simp [at91_pm_verify_clocks, hlog, h3],
          fun h => absurd h1 h,
          fun _ h => absurd h2 h,
          fun _ _ _ => hlog,
          fun _ _ hc3 _ => absurd hc3 h3⟩
    · have h2 : ¬ PcksOffOrSlow r := by
        intro hp
        have hnone := hloop.mpr hp
        rw [heq] at hnone
        exact Option.noConfusion hnone
      have hi4 : i < 4 := by
        rcases (by simpa using hi : i = 0 ∨ i = 1 ∨ i = 2 ∨ i = 3) with
          rfl | rfl | rfl | rfl <;> norm_num
      have hlog : at91_pm_verify_clocks_log d r =
          some (PmErr.pckSrc i (r.pckr i &&& AT91_PMC_CSS)) := by
        simp [at91_pm_verify_clocks_log, h1e, heq]
      exact ⟨by simp [at91_pm_verify_clocks, hlog, h2],
        fun h => absurd h1 h,
        fun _ _ => ⟨i, hi4, hlog⟩,
        fun _ hc2 _ => absurd hc2 h2,
        fun _ hc2 _ _ => absurd hc2 h2⟩
  · have h1e : r.scsr &&& d.uhp_udp_mask ≠ 0 := fun he => h1 he
    have hlog : at91_pm_verify_clocks_log d r = some PmErr.usbActive := by
      simp [at91_pm_verify_clocks_log, h1e]
    exact ⟨by simp [at91_pm_verify_clocks, hlog, h1],
      fun _ => hlog,
      fun hc1 _ => absurd hc1 h1,
      fun hc1 _ _ => absurd hc1 h1,
      fun hc1 _ _ _ => absurd hc1 h1⟩

/-- Witness for C2: an all-clear register file passes the validator, and a
register file with a USB clock bit set logs the USB-active error. -/
theorem claim_C2_witness :
    at91_pm_verify_clocks ⟨1, 0, 0, false⟩ ⟨0, 0, 0, 0, 0, 0, 0⟩ = true ∧
    at91_pm_verify_clocks_log ⟨1, 0, 0, false⟩ ⟨1, 0, 0, 0, 0, 0, 0⟩ =
      some PmErr.usbActive :=
  ⟨(claim_C2 ⟨1, 0, 0, false⟩ ⟨0, 0, 0, 0, 0, 0, 0⟩).1.mpr
      ⟨by decide, by decide, by decide, by decide⟩,
   (claim_C2 ⟨1, 0, 0, false⟩ ⟨1, 0, 0, 0, 0, 0, 0⟩).2.1 (by decide)⟩

lemma at91_pm_suspend_pm_data_eq (d : PmData) (state : Nat) :
    at91_pm_suspend_pm_data d state =
      ((d.memctrl ||| (if state = PM_SUSPEND_MEM then 16 else 0)) |||
        (d.ddrc_pid &&& 65535) <<< 16) |||
      (if d.is_sama5d4 then 32 else 0) := rfl

/-- C3: the mode word handed to the relocated routine has its
deep-clock-gating bit set iff the state is SuspendToRAM, and in every case
packs the profile's memory-controller kind (low field), the
memory-controller device id field and the variant-X flag bit. -/
theorem claim_C3 (d : PmData) (state : Nat)
    (hmc : d.memctrl < 16) (hpid : d.ddrc_pid < 2 ^ 16) :
    ((at91_pm_suspend_pm_data d state).testBit 4 =
      decide (state = PM_SUSPEND_MEM)) ∧
    (∀ i, i < 4 →
      (at91_pm_suspend_pm_data d state).testBit i = d.memctrl.testBit i) ∧
    (∀ i, (at91_pm_suspend_pm_data d state).testBit (16 + i) =
      d.ddrc_pid.testBit i) ∧
    ((at91_pm_suspend_pm_data d state).testBit 5 = d.is_sama5d4) := by
  have hmcbit : ∀ j, 4 ≤ j → d.memctrl.testBit j = false := by
    intro j hj
    have h2 : (16 : Nat) ≤ 2 ^ j := by
      calc (16 : Nat) = 2 ^ 4 := by norm_num
      _ ≤ 2 ^ j := Nat.pow_le_pow_right (by norm_num) hj
    exact Nat.testBit_lt_two_pow (lt_of_lt_of_le hmc h2)
  have hpidlow : ∀ j, j < 16 →
      Nat.testBit ((d.ddrc_pid &&& 65535) <<< 16) j = false := by
    intro j hj
    rw [Nat.testBit_shiftLeft]
    have hge : decide (j ≥ 16) = false := decide_eq_false (by omega)
    rw [hge, Bool.false_and]
  refine ⟨?_, ?_, ?_, ?_⟩
  · rw [at91_pm_suspend_pm_data_eq, Nat.testBit_or, Nat.testBit_or,
      Nat.testBit_or, hmcbit 4 (by norm_num), hpidlow 4 (by norm_num)]
    by_cases hst : state = PM_SUSPEND_MEM <;> by_cases hs4 : d.is_sama5d4 <;>
      simp [hst, hs4, show Nat.testBit 16 4 = true from rfl,
        show Nat.testBit 32 4 = false from rfl]
  · intro i hi
    rw [at91_pm_suspend_pm_data_eq, Nat.testBit_or, Nat.testBit_or,
      Nat.testBit_or, hpidlow i (by omega)]
    interval_cases i <;> by_cases hst : state = PM_SUSPEND_MEM <;>
      by_cases hs4 : d.is_sama5d4 <;>
      simp [hst, hs4,
        show Nat.testBit 16 0 = false from rfl,
        show Nat.testBit 16 1 = false from rfl,
        show Nat.testBit 16 2 = false from rfl,
        show Nat.testBit 16 3 = false from rfl,
        show Nat.testBit 32 0 = false from rfl,
        show Nat.testBit 32 1 = false from rfl,
        show Nat.testBit 32 2 = false from rfl,
        show Nat.testBit 32 3 = false from rfl]
  · intro i
    have hmc16 : Nat.testBit d.memctrl (16 + i) = false := hmcbit (16 + i) (by omega)
    have h16 : Nat.testBit 16 (16 + i) = false := by
      refine Nat.testBit_lt_two_pow (lt_of_lt_of_le (by norm_num : (16:Nat) < 2 ^ 16) ?_)
      exact Nat.pow_le_pow_right (by norm_num) (by omega)
    have h32 : Nat.testBit 32 (16 + i) = false := by
      refine Nat.testBit_lt_two_pow (lt_of_lt_of_le (by norm_num : (32:Nat) < 2 ^ 16) ?_)
      exact Nat.pow_le_pow_right (by norm_num) (by omega)
    have hshift : Nat.testBit ((d.ddrc_pid &&& 65535) <<< 16) (16 + i) =
        Nat.testBit d.ddrc_pid i := by
      rw [Nat.testBit_shiftLeft]
      have hge : decide (16 + i ≥ 16) = true := decide_eq_true (by omega)
      rw [hge, Bool.true_and, show 16 + i - 16 = i from by omega]
      by_cases hilt : i < 16
      · have hm : Nat.testBit 65535 i = true := by
          rw [show (65535 : Nat) = 2 ^ 16 - 1 from by norm_num,
            Nat.testBit_two_pow_sub_one]
          exact decide_eq_true hilt
        rw [Nat.testBit_and, hm, Bool.and_true]
      · have hp : Nat.testBit d.ddrc_pid i = false := by
          refine Nat.testBit_lt_two_pow (lt_of_lt_of_le hpid ?_)
          exact Nat.pow_le_pow_right (by norm_num) (by omega)
        rw [Nat.testBit_and, hp, Bool.false_and]
    rw [at91_pm_suspend_pm_data_eq, Nat.testBit_or, Nat.testBit_or,
      Nat.testBit_or, hmc16, hshift]
    by_cases hst : state = PM_SUSPEND_MEM <;> by_cases hs4 : d.is_sama5d4 <;>
      simp [hst, hs4, h16, h32]
  · rw [at91_pm_suspend_pm_data_eq, Nat.testBit_or, Nat.testBit_or,
      Nat.testBit_or, hmcbit 5 (by norm_num), hpidlow 5 (by norm_num)]
    by_cases hst : state = PM_SUSPEND_MEM <;> by_cases hs4 : d.is_sama5d4 <;>
      simp [hst, hs4, show Nat.testBit 16 5 = false from rfl,
        show Nat.testBit 32 5 = true from rfl]

/-- Witness for C3 with memory-controller kind DDRSDR, device id 5 and the
variant flag set, requesting Standby: the deep bit is clear and the
variant bit set. -/
theorem claim_C3_witness :
    (2 : Nat) < 16 ∧ (5 : Nat) < 2 ^ 16 ∧
    (at91_pm_suspend_pm_data ⟨0, 2, 5, true⟩ PM_SUSPEND_STANDBY).testBit 4 = false ∧
    (at91_pm_suspend_pm_data ⟨0, 2, 5, true⟩ PM_SUSPEND_STANDBY).testBit 5 = true := by
  have h := claim_C3 ⟨0, 2, 5, true⟩ PM_SUSPEND_STANDBY (by norm_num) (by norm_num)
  refine ⟨by norm_num, by norm_num, ?_, ?_⟩
  · simpa [PM_SUSPEND_STANDBY, PM_SUSPEND_MEM] using h.1
  · simpa using h.2.2.2

end AT91
